import Mathlib

/-
  Verification of the camelot page-materialization pipeline
  (src/camelot/handlers.py and src/camelot/parsers/base.py).

  The Python code is shallowly embedded below.  Strings are modelled by
  Lean `String`, but every string operation the code performs
  (str.split, str.replace, str.isdigit, str.lower, str.endswith, int())
  is re-implemented over `String.data : List Char` so that each model is
  transparent and kernel-evaluable.  Collaborators that live outside the
  two source files (PyPDF2, pdfminer layout analysis, get_rotation) are
  abstracted: single-page documents become a free datatype recording
  which physical rotations were applied, the rotation detector and the
  layout analyzer become function parameters.
-/

namespace Camelot

/-! ## Python string primitives, over `String.data` -/

/-- Model of Python `str.split(sep)` for a one-character separator
(the code only splits on `","` and `"-"`).  `""` splits to `[""]`,
`","` splits to `["", ""]`, exactly as in Python. -/
def splitCharAux (sep : Char) : List Char → List Char → List (List Char)
  | [], acc => [acc.reverse]
  | c :: cs, acc =>
    if c = sep then acc.reverse :: splitCharAux sep cs []
    else splitCharAux sep cs (c :: acc)

def pySplit (s : String) (sep : Char) : List String :=
  (splitCharAux sep s.data []).map (fun l => ⟨l⟩)

/-- Model of Python `"-" in r` (single-character needle). -/
def strContains (s : String) (c : Char) : Bool :=
  s.data.contains c

/-- Model of Python `str.isdigit()` for ASCII content: nonempty and all
characters are digits. -/
def isdigit (s : String) : Bool :=
  !s.data.isEmpty && s.data.all Char.isDigit

/-- Numeric value of a digit string (what Python `int()` returns on a
string accepted by `isdigit`). -/
def pyInt (s : String) : Nat :=
  s.data.foldl (fun n c => n * 10 + (c.toNat - 48)) 0

/-- Model of Python `int(tok)` on page tokens: succeeds exactly on digit
strings, otherwise raises `ValueError` (modelled as `none`).  The tokens
the handler meets are ASCII; exotic `int()` inputs (signs, surrounding
whitespace, underscores) do not occur in the claims. -/
def parseIntToken (s : String) : Option Nat :=
  if isdigit s then some (pyInt s) else none

/-- Fuel-driven core of Python `str.replace(pat, rep)` (all
occurrences, nonempty pattern); fuel `≥` input length suffices since
every step consumes at least one character. -/
def replaceAllFuel (pat rep : List Char) : Nat → List Char → List Char
  | 0, l => l
  | _ + 1, [] => []
  | fuel + 1, c :: cs =>
    if pat.isPrefixOf (c :: cs) && !pat.isEmpty then
      rep ++ replaceAllFuel pat rep fuel (cs.drop (pat.length - 1))
    else
      c :: replaceAllFuel pat rep fuel cs

/-- Model of Python `s.replace(pat, rep)` for a nonempty pattern. -/
def pyReplace (s pat rep : String) : String :=
  ⟨replaceAllFuel pat.data rep.data s.data.length s.data⟩

/-- Model of Python `str.lower()` for the ASCII paths in play. -/
def pyLower (s : String) : String :=
  ⟨s.data.map Char.toLower⟩

/-- Model of Python `str.endswith(sfx)`. -/
def pyEndsWith (s sfx : String) : Bool :=
  sfx.data.isSuffixOf s.data

/-! ## `PDFHandler._get_pages` -/

/-- One entry of the `page_numbers` list built by `_get_pages`: a dict
`{"start": a, "end": b}`. -/
structure Span where
  start : Nat
  stop : Nat
  deriving DecidableEq

/-- Python `range(p["start"], p["end"] + 1)` materialized as a list;
empty when `stop < start`, exactly as `range` is. -/
def expandSpan (s : Span) : List Nat :=
  List.range' s.start (s.stop + 1 - s.start)

/-- Insertion into a strictly sorted duplicate-free list; folding it
over a list computes Python's `sorted(set(P))`. -/
def insertSorted (x : Nat) : List Nat → List Nat
  | [] => [x]
  | y :: ys =>
    if x < y then x :: y :: ys
    else if x = y then y :: ys
    else y :: insertSorted x ys

/-- Model of Python `sorted(set(P))`. -/
def sortedSet (l : List Nat) : List Nat :=
  l.foldr insertSorted []

/-- One token of the comma-separated selection, as parsed by the loop
body of `_get_pages`: `"A-B"`/`"A-end"` ranges and bare integers; a
token that unpacks to more or fewer than two parts around `-`, or whose
parts fail `int()`, raises `ValueError` (modelled as `none`). -/
def parseToken (numPages : Nat) (r : String) : Option Span :=
  if strContains r '-' then
    match pySplit r '-' with
    | [a, b] =>
      match parseIntToken a, (if b = "end" then some numPages else parseIntToken b) with
      | some av, some bv => some ⟨av, bv⟩
      | _, _ => none
    | _ => none
  else
    match parseIntToken r with
    | some v => some ⟨v, v⟩
    | none => none

/-- The `for r in pages.split(",")` loop of `_get_pages`: the first
failing token aborts the whole parse (the `ValueError` propagates), so
no page list at all is produced. -/
def parseTokens (numPages : Nat) : List String → Option (List Span)
  | [] => some []
  | r :: rs =>
    match parseToken numPages r with
    | none => none
    | some s => (parseTokens numPages rs).map (fun ts => s :: ts)

/-- Span-list stage of `PDFHandler._get_pages`.  The boolean records
whether the source document was opened (`with open(self.filepath) ...`),
which happens exactly when the selection is not a bare digit string.
`numPages` stands for `infile.getNumPages()`; decryption is handled by
the excluded PDF backend and does not affect the returned pages. -/
def getPagesSpans (numPages : Nat) (pages : String) : Option (List Span × Bool) :=
  if isdigit pages then
    some ([⟨pyInt pages, pyInt pages⟩], false)
  else
    if pages = "all" then
      some ([⟨1, numPages⟩], true)
    else
      (parseTokens numPages (pySplit pages ',')).map (fun ts => (ts, true))

/-- Model of `PDFHandler._get_pages`: expand every span with
`range(start, end + 1)` and return `sorted(set(P))`; `none` models the
`ValueError` a malformed token raises. -/
def getPages (numPages : Nat) (pages : String) : Option (List Nat × Bool) :=
  match getPagesSpans numPages pages with
  | none => none
  | some (spans, opened) => some (sortedSet (spans.map expandSpan).flatten, opened)

/-! ## `PDFHandler._save_page` -/

/-- The rotation verdict returned by `get_rotation` (an excluded
collaborator): the code compares it against the strings `""`
(no rotation), `"clockwise"` and `"anticlockwise"`. -/
inductive Rotation where
  | none
  | clockwise
  | anticlockwise
  deriving DecidableEq

/-- A single-page PDF document as `_save_page` manipulates it, with the
PyPDF2 operations it uses kept free: `extracted p` is the page obtained
by `infile.getPage` plus `outfile.addPage`/`write`, and the two
constructors record a physical `rotateClockwise(90)` or
`rotateCounterClockwise(90)` call on a page.  `P` is the abstract
content of a source page. -/
inductive PDoc (P : Type) where
  | extracted (p : P)
  | rotateClockwise (d : PDoc P) (deg : Nat)
  | rotateCounterClockwise (d : PDoc P) (deg : Nat)
  deriving DecidableEq

/-- The target path `os.path.join(temp, f"page-{page}.pdf")`. -/
def pagePath (temp : String) (page : Nat) : String :=
  temp ++ "/page-" ++ toString page ++ ".pdf"

/-- `froot` from `os.path.splitext(fpath)`: since the basename
`page-N.pdf` always carries exactly the `.pdf` extension, the root is
the path without it, for every `temp`. -/
def pageRoot (temp : String) (page : Nat) : String :=
  temp ++ "/page-" ++ toString page

/-- The intermediate name `"".join([froot.replace("page", "p"),
"_rotated", fext])` used when a rotation has to be fixed. -/
def rotatedPath (temp : String) (page : Nat) : String :=
  pyReplace (pageRoot temp page) "page" "p" ++ "_rotated" ++ ".pdf"

/-- The physical correction `_save_page` applies for a verdict: the
code rotates clockwise for an `anticlockwise` verdict and
counter-clockwise for a `clockwise` one (and adds the page unchanged
otherwise). -/
def correctedPage {P : Type} (r : Rotation) (p : PDoc P) : PDoc P :=
  match r with
  | Rotation.anticlockwise => PDoc.rotateClockwise p 90
  | Rotation.clockwise => PDoc.rotateCounterClockwise p 90
  | Rotation.none => p

/-- Model of `PDFHandler._save_page` as a transformer of the scoped
working directory, a map from paths to single-page files.  `doc page`
is the content `infile.getPage(page - 1)` extracts; `detect` composes
the excluded collaborators `get_page_layout`/`get_text_objects`/
`get_rotation` run on the freshly written file.  Decryption is a no-op
at this level of abstraction.  The steps mirror the source: write the
extracted page at `fpath`; detect rotation; when the verdict is not
none, `os.rename` the file to the intermediate name, re-open it, and
write the corrected page back at `fpath`.  The source closes the
intermediate stream but never deletes the intermediate file. -/
def savePage {P : Type} (detect : PDoc P → Rotation) (doc : Nat → P)
    (page : Nat) (temp : String) (fs : String → Option (PDoc P)) :
    String → Option (PDoc P) :=
  let fpath := pagePath temp page
  let extracted := PDoc.extracted (doc page)
  let fs1 : String → Option (PDoc P) := fun q => if q = fpath then some extracted else fs q
  let rotation := detect extracted
  if rotation ≠ Rotation.none then
    let fpathNew := rotatedPath temp page
    let fs2 : String → Option (PDoc P) := fun q =>
      if q = fpathNew then fs1 fpath else if q = fpath then Option.none else fs1 q
    let pg := (fs2 fpathNew).getD extracted
    fun q => if q = fpath then some (correctedPage rotation pg) else fs2 q
  else fs1

/-! ## `PDFHandler._check_page_data` -/

/-- The per-page dict built by `_check_page_data`; `L`, `D`, `I` are
the types of cached layout handles, page dimensions and image paths.
The caller-supplied caches `pdf_layouts`/`pdf_sizes`/`pdf_images` are
modelled as partial maps `Nat → Option _`, so `page not in dict`
becomes `isNone`. -/
structure PageInfo (L D I : Type) where
  page : Nat
  layout : Option L
  size : Option D
  image : Option I
  file : String
  file_required : Bool
  deriving DecidableEq

/-- The loop body of `_check_page_data` for one page: `file_required`
starts `False`, is set when layout or size is missing, and otherwise
when the flavor is `"lattice"` and the image is missing. -/
def mkPageInfo {L D I : Type} (flavor : String)
    (pdf_layouts : Nat → Option L) (pdf_sizes : Nat → Option D)
    (pdf_images : Nat → Option I) (tempdir : String) (page : Nat) :
    PageInfo L D I :=
  { page := page
    layout := pdf_layouts page
    size := pdf_sizes page
    image := pdf_images page
    file := pagePath tempdir page
    file_required :=
      if (pdf_layouts page).isNone || (pdf_sizes page).isNone then true
      else if (flavor == "lattice") && (pdf_images page).isNone then true
      else false }

/-- Model of `PDFHandler._check_page_data`: one `PageInfo` per selected
page, in order. -/
def checkPageData {L D I : Type} (flavor : String)
    (pdf_layouts : Nat → Option L) (pdf_sizes : Nat → Option D)
    (pdf_images : Nat → Option I) (tempdir : String)
    (selfPages : List Nat) : List (PageInfo L D I) :=
  selfPages.map (mkPageInfo flavor pdf_layouts pdf_sizes pdf_images tempdir)

/-! ## `BaseParser._generate_layout` (src/camelot/parsers/base.py) -/

/-- Core of `os.path.splitext(s)[0]` on reversed characters: strip up
to the last dot when one appears before any slash (adequate for the
`page-N.pdf` style paths used here; Python additionally keeps a single
leading dot of the basename, a case that never arises). -/
def splitextRootRev : List Char → Option (List Char)
  | [] => Option.none
  | '/' :: _ => Option.none
  | '.' :: rest => some rest
  | _ :: rest => splitextRootRev rest

/-- Model of `os.path.splitext(s)[0]`. -/
def splitextRoot (s : String) : String :=
  match splitextRootRev s.data.reverse with
  | some restRev => ⟨restRev.reverse⟩
  | Option.none => s

/-- The geometry fields `_generate_layout` hydrates on the parser,
plus a flag recording whether `get_page_layout` (layout analysis) was
invoked as the fallback. -/
structure ParserGeometry (L D : Type) where
  filename : String
  layout : L
  dimensions : D
  ranLayoutAnalysis : Bool
  imagename : String
  deriving DecidableEq

/-- Model of `BaseParser._generate_layout`: reuse the cached layout and
dimensions from the `PageInfo` when both are present, otherwise run
layout analysis (`analyze`, standing for `get_page_layout`) on the
file.  The image name falls back to `rootname + ".png"` when the cached
entry is missing or empty (Python `or` on a falsy string). -/
def generateLayout {L D : Type} (analyze : String → L × D)
    (pi : PageInfo L D String) : ParserGeometry L D :=
  let filename := pi.file
  let imagename :=
    match pi.image with
    | some s => if s = "" then splitextRoot filename ++ ".png" else s
    | Option.none => splitextRoot filename ++ ".png"
  match pi.layout, pi.size with
  | some l, some d =>
      { filename := filename, layout := l, dimensions := d
        ranLayoutAnalysis := false, imagename := imagename }
  | _, _ =>
      let ld := analyze filename
      { filename := filename, layout := ld.1, dimensions := ld.2
        ranLayoutAnalysis := true, imagename := imagename }

/-! ## `PDFHandler.__init__` -/

/-- The error kinds the handler construction path can raise: the
`NotImplementedError("File format not supported")` for a non-PDF input
(the spec's `UnsupportedFormat`) and the `ValueError` a malformed
selection token raises inside `_get_pages` (the spec's
`MalformedSelection`). -/
inductive HandlerError where
  | UnsupportedFormat
  | MalformedSelection
  deriving DecidableEq

/-- Model of `PDFHandler.__init__` for a local filepath: the
`filepath.lower().endswith(".pdf")` check runs first and raises before
`self.pages = self._get_pages(pages)` ever parses the selection.
`numPages` again stands for the page count of the opened document. -/
def initHandler (numPages : Nat) (filepath : String) (pages : String) :
    Except HandlerError (List Nat) :=
  if !(pyEndsWith (pyLower filepath) ".pdf") then
    Except.error HandlerError.UnsupportedFormat
  else
    match getPages numPages pages with
    | some (ps, _) => Except.ok ps
    | Option.none => Except.error HandlerError.MalformedSelection

/-! ## Helper lemmas about `sortedSet` and `List.range'` -/

theorem mem_insertSorted {x y : Nat} : ∀ {l : List Nat},
    y ∈ insertSorted x l → y = x ∨ y ∈ l := by
  intro l
  induction l with
  | nil => intro h; simp [insertSorted] at h; exact Or.inl h
  | cons z zs ih =>
    intro h
    unfold insertSorted at h
    by_cases h1 : x < z
    · simp [h1] at h
      rcases h with h | h | h
      · exact Or.inl h
      · exact Or.inr (by simp [h])
      · exact Or.inr (by simp [h])
    · by_cases h2 : x = z
      · simp [h1, h2] at h
        rcases h with h | h
        · exact Or.inl (h.trans h2.symm)
        · exact Or.inr (by simp [h])
      · simp [h1, h2] at h
        rcases h with h | h
        · exact Or.inr (by simp [h])
        · rcases ih h with h | h
          · exact Or.inl h
          · exact Or.inr (by simp [h])

theorem sorted_insertSorted {x : Nat} : ∀ {l : List Nat},
    List.Sorted (· < ·) l → List.Sorted (· < ·) (insertSorted x l) := by
  intro l
  induction l with
  | nil => intro _; simp [insertSorted]
  | cons z zs ih =>
    intro hs
    rw [List.sorted_cons] at hs
    obtain ⟨hz, hzs⟩ := hs
    unfold insertSorted
    by_cases h1 : x < z
    · rw [if_pos h1]
      rw [List.sorted_cons]
      refine ⟨?_, by rw [List.sorted_cons]; exact ⟨hz, hzs⟩⟩
      intro b hb
      rcases List.mem_cons.mp hb with hb | hb
      · exact hb ▸ h1
      · exact h1.trans (hz b hb)
    · by_cases h2 : x = z
      · subst h2
        rw [if_neg h1, if_pos rfl]
        rw [List.sorted_cons]; exact ⟨hz, hzs⟩
      · rw [if_neg h1, if_neg h2]
        rw [List.sorted_cons]
        refine ⟨?_, ih hzs⟩
        intro b hb
        rcases mem_insertSorted hb with hb | hb
        · subst hb
          omega
        · exact hz b hb

theorem sorted_sortedSet : ∀ l : List Nat, List.Sorted (· < ·) (sortedSet l) := by
  intro l
  induction l with
  | nil => simp [sortedSet]
  | cons a l ih => exact sorted_insertSorted ih

theorem insertSorted_of_forall_lt {x : Nat} : ∀ {l : List Nat},
    (∀ b ∈ l, x < b) → insertSorted x l = x :: l := by
  intro l h
  cases l with
  | nil => rfl
  | cons z zs =>
    unfold insertSorted
    simp [h z (by simp)]

theorem sortedSet_eq_self : ∀ {l : List Nat},
    List.Sorted (· < ·) l → sortedSet l = l := by
  intro l
  induction l with
  | nil => intro _; rfl
  | cons a l ih =>
    intro hs
    rw [List.sorted_cons] at hs
    obtain ⟨ha, hl⟩ := hs
    show insertSorted a (sortedSet l) = a :: l
    rw [ih hl]
    exact insertSorted_of_forall_lt ha

theorem le_of_mem_range' {s n m : Nat} : m ∈ List.range' s n → s ≤ m := by
  induction n generalizing s with
  | zero => intro h; simp [List.range'] at h
  | succ n ih =>
    intro h
    rw [List.range'] at h
    rcases List.mem_cons.mp h with h | h
    · omega
    · have := ih h; omega

theorem sorted_range' (s n : Nat) : List.Sorted (· < ·) (List.range' s n) := by
  induction n generalizing s with
  | zero => simp [List.range']
  | succ n ih =>
    rw [List.range', List.sorted_cons]
    refine ⟨?_, ih (s + 1)⟩
    intro b hb
    have := le_of_mem_range' hb
    omega

theorem parseTokens_none_of_mem {numPages : Nat} {r : String} :
    ∀ {ts : List String}, r ∈ ts → parseToken numPages r = none →
    parseTokens numPages ts = none := by
  intro ts
  induction ts with
  | nil => intro h; simp at h
  | cons t ts ih =>
    intro hmem hbad
    rcases List.mem_cons.mp hmem with h | h
    · subst h
      unfold parseTokens
      rw [hbad]
    · unfold parseTokens
      cases parseToken numPages t with
      | none => rfl
      | some s => rw [ih h hbad]; rfl

/-- Successful digit fast path of `getPagesSpans`. -/
theorem getPagesSpans_digit {numPages : Nat} {pages : String}
    (h : isdigit pages = true) :
    getPagesSpans numPages pages = some ([⟨pyInt pages, pyInt pages⟩], false) := by
  unfold getPagesSpans
  rw [if_pos h]

/-! ## Claim theorems -/

/-- C4: whenever `_get_pages` returns a page list, that list is
strictly increasing and duplicate-free (it is `sorted(set(P))`). -/
theorem getPages_sorted_nodup (numPages : Nat) (pages : String)
    (ps : List Nat) (opened : Bool)
    (h : getPages numPages pages = some (ps, opened)) :
    List.Sorted (· < ·) ps ∧ ps.Nodup := by
  unfold getPages at h
  cases hs : getPagesSpans numPages pages with
  | none => rw [hs] at h; cases h
  | some v =>
    rw [hs] at h
    obtain ⟨spans, op⟩ := v
    simp only [Option.some.injEq, Prod.mk.injEq] at h
    obtain ⟨hps, _⟩ := h
    subst hps
    exact ⟨sorted_sortedSet _,
      List.Pairwise.imp (fun hab => Nat.ne_of_lt hab) (sorted_sortedSet _)⟩

/-- Witness for C4 at the spec's examples: `"1,3,4"` gives `[1,3,4]`,
`"2-2,1"` gives `[1,2]`, `"1,1,1"` gives `[1]`, and the theorem applies
at `"2-2,1"`. -/
theorem getPages_sorted_nodup_witness :
    getPages 5 "1,3,4" = some ([1, 3, 4], true) ∧
    getPages 5 "2-2,1" = some ([1, 2], true) ∧
    getPages 5 "1,1,1" = some ([1], true) ∧
    List.Sorted (· < ·) [1, 2] ∧ List.Nodup [1, 2] :=
  ⟨by decide, by decide, by decide,
   (getPages_sorted_nodup 5 "2-2,1" [1, 2] true (by decide)).1,
   (getPages_sorted_nodup 5 "2-2,1" [1, 2] true (by decide)).2⟩

/-- C5: the selection `"all"` on an `N`-page document expands to
`[1..N]`, a range token `"3-end"` resolves its upper bound to `N`, and
on a 5-page document they give `[1,2,3,4,5]` and `[3,4,5]`. -/
theorem all_and_end_resolve_to_page_count :
    (∀ numPages : Nat,
      getPages numPages "all" = some (List.range' 1 numPages, true)) ∧
    (∀ numPages : Nat,
      getPages numPages "3-end" = some (List.range' 3 (numPages + 1 - 3), true)) ∧
    getPages 5 "all" = some ([1, 2, 3, 4, 5], true) ∧
    getPages 5 "3-end" = some ([3, 4, 5], true) := by
  refine ⟨?_, ?_, by decide, by decide⟩
  · intro N
    have hs : getPagesSpans N "all" = some ([⟨1, N⟩], true) := rfl
    unfold getPages
    rw [hs]
    simp only [List.map_cons, List.map_nil, List.flatten_cons, List.flatten_nil,
      expandSpan, List.append_nil]
    rw [Nat.add_sub_cancel]
    rw [sortedSet_eq_self (sorted_range' 1 N)]
  · intro N
    have hs : getPagesSpans N "3-end" = some ([⟨3, N⟩], true) := rfl
    unfold getPages
    rw [hs]
    simp only [List.map_cons, List.map_nil, List.flatten_cons, List.flatten_nil,
      expandSpan, List.append_nil]
    rw [sortedSet_eq_self (sorted_range' 3 (N + 1 - 3))]

/-- C10: a selection consisting solely of digits is returned as the
singleton of its integer value without opening the source document
(the returned flag is `false`), independently of the actual page
count — so an out-of-range single page like `"999"` passes parsing. -/
theorem digit_selection_singleton_no_open (numPages : Nat) (pages : String)
    (h : isdigit pages = true) :
    getPages numPages pages = some ([pyInt pages], false) := by
  unfold getPages
  rw [getPagesSpans_digit h]
  simp only [List.map_cons, List.map_nil, List.flatten_cons, List.flatten_nil,
    expandSpan, List.append_nil]
  rw [Nat.add_sub_cancel_left]
  rfl

/-- Witness for C10: `"999"` on a 3-page document parses to `[999]`
with the document left unopened. -/
theorem digit_selection_singleton_no_open_witness :
    isdigit "999" = true ∧ getPages 3 "999" = some ([999], false) :=
  ⟨by decide, digit_selection_singleton_no_open 3 "999" (by decide)⟩

/-- C2 counterexample: the reversed range `"2-1"` does NOT fail — it
parses successfully and contributes no pages (`range(2, 2)` is empty),
so `_get_pages` returns the empty list instead of raising. -/
theorem reversed_range_yields_empty_without_error :
    getPages 5 "2-1" = some ([], true) ∧ getPages 5 "2-1" ≠ Option.none := by
  exact ⟨by decide, by decide⟩

/-- C2 (amended): a selection containing a token that is not a valid
integer or range (a failing `int()` or a bad unpack around `-`) makes
the whole parse fail, with no page list at all returned; reversed
ranges, by contrast, are accepted and simply contribute no pages. -/
theorem malformed_integer_token_fails (numPages : Nat) (pages : String)
    (r : String) (h1 : isdigit pages = false) (h2 : pages ≠ "all")
    (hr : r ∈ pySplit pages ',') (hbad : parseToken numPages r = Option.none) :
    getPages numPages pages = Option.none := by
  unfold getPages getPagesSpans
  rw [if_neg (by rw [h1]; exact Bool.false_ne_true), if_neg h2,
    parseTokens_none_of_mem hr hbad]
  rfl

/-- Witness for C2 (amended): the selection `"x-2"` has the malformed
token `"x-2"` and the whole parse fails. -/
theorem malformed_integer_token_fails_witness :
    isdigit "x-2" = false ∧ "x-2" ≠ "all" ∧ "x-2" ∈ pySplit "x-2" ',' ∧
    parseToken 5 "x-2" = Option.none ∧ getPages 5 "x-2" = Option.none :=
  ⟨by decide, by decide, by decide, by decide,
   malformed_integer_token_fails 5 "x-2" "x-2" (by decide) (by decide)
     (by decide) (by decide)⟩

/-- C9: a filepath that does not end in `".pdf"` (case-insensitively)
makes handler construction fail with `UnsupportedFormat`, for every
selection string and page count — the check runs before the selection
is ever parsed. -/
theorem non_pdf_rejected_before_parsing (filepath : String)
    (h : pyEndsWith (pyLower filepath) ".pdf" = false) :
    ∀ (numPages : Nat) (pages : String),
      initHandler numPages filepath pages =
        Except.error HandlerError.UnsupportedFormat := by
  intro numPages pages
  unfold initHandler
  rw [h]
  rfl

/-- Witness for C9: `"doc.txt"` is rejected even with a selection
string that would itself be malformed, showing the format check comes
first. -/
theorem non_pdf_rejected_before_parsing_witness :
    pyEndsWith (pyLower "doc.txt") ".pdf" = false ∧
    initHandler 0 "doc.txt" "x-2" =
      Except.error HandlerError.UnsupportedFormat :=
  ⟨by decide, non_pdf_rejected_before_parsing "doc.txt" (by decide) 0 "x-2"⟩

/-- C3: for every `PageInfo` built by `_check_page_data`,
`file_required` is true exactly when the cached layout or the cached
dimensions are absent, or — for the lattice flavor only — the cached
image is absent. -/
theorem file_required_iff_cache_missing {L D I : Type} (flavor : String)
    (pdf_layouts : Nat → Option L) (pdf_sizes : Nat → Option D)
    (pdf_images : Nat → Option I) (tempdir : String) (selfPages : List Nat)
    (info : PageInfo L D I)
    (hmem : info ∈ checkPageData flavor pdf_layouts pdf_sizes pdf_images tempdir selfPages) :
    info.file_required =
      (info.layout.isNone || info.size.isNone ||
        ((flavor == "lattice") && info.image.isNone)) := by
  rcases List.mem_map.mp hmem with ⟨page, _, rfl⟩
  unfold mkPageInfo
  cases hL : (pdf_layouts page) <;> cases hS : (pdf_sizes page) <;>
    cases hI : (pdf_images page) <;> cases hf : (flavor == "lattice") <;>
      simp [hL, hS, hI, hf]

/-- Concrete record for the C3 witness: cached layout present, size
and image missing, lattice flavor, page 2. -/
def samplePI : PageInfo Nat Nat Nat :=
  @mkPageInfo Nat Nat Nat "lattice" (fun _ => some 7) (fun _ => Option.none)
    (fun _ => Option.none) "/t" 2

/-- Witness for C3: with the size cache missing, `file_required` is
true and agrees with the stated disjunction. -/
theorem file_required_iff_cache_missing_witness :
    samplePI ∈ @checkPageData Nat Nat Nat "lattice" (fun _ => some 7)
      (fun _ => Option.none) (fun _ => Option.none) "/t" [2] ∧
    samplePI.file_required =
      (samplePI.layout.isNone || samplePI.size.isNone ||
        (("lattice" == "lattice") && samplePI.image.isNone)) :=
  ⟨by decide,
   file_required_iff_cache_missing "lattice" (fun _ => some 7) (fun _ => Option.none)
     (fun _ => Option.none) "/t" [2] samplePI (by decide)⟩

/-- C6: when the caller supplied a cached layout and cached dimensions
for a page (and, for the lattice flavor, a cached image),
`file_required` is false — so `parse` skips `_save_page` for that
page — and `_generate_layout` reuses the cached layout and dimensions
instead of running layout analysis, so no layout analysis happens for
that page in the request. -/
theorem cached_page_skips_layout_analysis {L D : Type} (flavor : String)
    (pdf_layouts : Nat → Option L) (pdf_sizes : Nat → Option D)
    (pdf_images : Nat → Option String) (tempdir : String) (page : Nat)
    (l : L) (d : D) (analyze : String → L × D)
    (hl : pdf_layouts page = some l) (hd : pdf_sizes page = some d)
    (him : flavor = "lattice" → (pdf_images page).isSome = true) :
    (mkPageInfo flavor pdf_layouts pdf_sizes pdf_images tempdir page).file_required = false ∧
    (generateLayout analyze
      (mkPageInfo flavor pdf_layouts pdf_sizes pdf_images tempdir page)).ranLayoutAnalysis = false ∧
    (generateLayout analyze
      (mkPageInfo flavor pdf_layouts pdf_sizes pdf_images tempdir page)).layout = l ∧
    (generateLayout analyze
      (mkPageInfo flavor pdf_layouts pdf_sizes pdf_images tempdir page)).dimensions = d := by
  refine ⟨?_, ?_, ?_, ?_⟩
  · unfold mkPageInfo
    by_cases hf : flavor = "lattice"
    · have him2 := him hf
      cases hI : (pdf_images page) with
      | none => rw [hI] at him2; simp at him2
      | some i => simp [hl, hd, hI]
    · simp [hl, hd, beq_eq_false_iff_ne.mpr hf]
  · simp [generateLayout, mkPageInfo, hl, hd]
  · simp [generateLayout, mkPageInfo, hl, hd]
  · simp [generateLayout, mkPageInfo, hl, hd]

/-- Witness for C6: lattice flavor with layout, size and image all
cached for page 1. -/
theorem cached_page_skips_layout_analysis_witness :
    (@mkPageInfo Nat Nat String "lattice" (fun _ => some 4) (fun _ => some 9)
      (fun _ => some "img.png") "/t" 1).file_required = false ∧
    (generateLayout (fun _ => (0, 0))
      (@mkPageInfo Nat Nat String "lattice" (fun _ => some 4) (fun _ => some 9)
        (fun _ => some "img.png") "/t" 1)).ranLayoutAnalysis = false ∧
    (generateLayout (fun _ => (0, 0))
      (@mkPageInfo Nat Nat String "lattice" (fun _ => some 4) (fun _ => some 9)
        (fun _ => some "img.png") "/t" 1)).layout = 4 ∧
    (generateLayout (fun _ => (0, 0))
      (@mkPageInfo Nat Nat String "lattice" (fun _ => some 4) (fun _ => some 9)
        (fun _ => some "img.png") "/t" 1)).dimensions = 9 :=
  cached_page_skips_layout_analysis "lattice" (fun _ => some 4) (fun _ => some 9)
    (fun _ => some "img.png") "/t" 1 4 9 (fun _ => (0, 0)) rfl rfl (fun _ => rfl)

/-- C7: when the rotation verdict on the freshly written page is
`none`, `_save_page` leaves exactly the extracted single page at the
target path, and no other path in the working directory is touched —
no rename, no rewrite. -/
theorem verdict_none_leaves_extracted_page {P : Type}
    (detect : PDoc P → Rotation) (doc : Nat → P) (page : Nat)
    (temp : String) (fs : String → Option (PDoc P))
    (h : detect (PDoc.extracted (doc page)) = Rotation.none) :
    savePage detect doc page temp fs (pagePath temp page) =
      some (PDoc.extracted (doc page)) ∧
    ∀ q, q ≠ pagePath temp page → savePage detect doc page temp fs q = fs q := by
  constructor
  · simp [savePage, h]
  · intro q hq
    simp [savePage, h, hq]

/-- Witness for C7: verdict `none` on page 1; the target path holds the
extracted page and an unrelated path stays empty. -/
theorem verdict_none_leaves_extracted_page_witness :
    savePage (fun _ => Rotation.none) (fun _ => ()) 1 "/t"
        (fun _ => Option.none) (pagePath "/t" 1) =
      some (PDoc.extracted ()) ∧
    savePage (fun _ => Rotation.none) (fun _ => ()) 1 "/t"
        (fun _ => Option.none) "/t/other.pdf" = Option.none :=
  have H := verdict_none_leaves_extracted_page (fun _ => Rotation.none)
    (fun _ => ()) 1 "/t" (fun _ => Option.none) rfl
  ⟨H.1, by rw [H.2 "/t/other.pdf" (by decide)]⟩

/-- C1 counterexample: with a `clockwise` verdict, the page written
back to the target path is `rotateCounterClockwise(90)` of the
extracted page, not `rotateClockwise(90)` — the claim's direction
mapping is inverted relative to the code. -/
theorem clockwise_verdict_not_rotated_clockwise :
    savePage (fun _ => Rotation.clockwise) (fun _ => ()) 1 "/t"
        (fun _ => Option.none) (pagePath "/t" 1) =
      some (PDoc.rotateCounterClockwise (PDoc.extracted ()) 90) ∧
    savePage (fun _ => Rotation.clockwise) (fun _ => ()) 1 "/t"
        (fun _ => Option.none) (pagePath "/t" 1) ≠
      some (PDoc.rotateClockwise (PDoc.extracted ()) 90) := by
  exact ⟨by decide, by decide⟩

/-- C1 (amended): rotation correction applies the physical rotation
opposite to the verdict before writing the corrected page back to the
original target path: a `clockwise` verdict is corrected with
`rotateCounterClockwise(90)` and an `anticlockwise` verdict with
`rotateClockwise(90)`. -/
theorem rotation_correction_inverts_verdict {P : Type}
    (detect : PDoc P → Rotation) (doc : Nat → P) (page : Nat)
    (temp : String) (fs : String → Option (PDoc P)) :
    (detect (PDoc.extracted (doc page)) = Rotation.clockwise →
      savePage detect doc page temp fs (pagePath temp page) =
        some (PDoc.rotateCounterClockwise (PDoc.extracted (doc page)) 90)) ∧
    (detect (PDoc.extracted (doc page)) = Rotation.anticlockwise →
      savePage detect doc page temp fs (pagePath temp page) =
        some (PDoc.rotateClockwise (PDoc.extracted (doc page)) 90)) := by
  constructor <;> intro h <;> simp [savePage, h, correctedPage]

/-- Witness for C1 (amended): both verdicts on concrete pages, with the
resulting physical rotation evaluated. -/
theorem rotation_correction_inverts_verdict_witness :
    savePage (fun _ => Rotation.clockwise) (fun _ => ()) 1 "/t"
        (fun _ => Option.none) (pagePath "/t" 1) =
      some (PDoc.rotateCounterClockwise (PDoc.extracted ()) 90) ∧
    savePage (fun _ => Rotation.anticlockwise) (fun _ => ()) 1 "/t"
        (fun _ => Option.none) (pagePath "/t" 1) =
      some (PDoc.rotateClockwise (PDoc.extracted ()) 90) :=
  ⟨(rotation_correction_inverts_verdict (fun _ => Rotation.clockwise)
      (fun _ => ()) 1 "/t" (fun _ => Option.none)).1 rfl,
   (rotation_correction_inverts_verdict (fun _ => Rotation.anticlockwise)
      (fun _ => ()) 1 "/t" (fun _ => Option.none)).2 rfl⟩

/-- C8 counterexample: after `_save_page` returns with a non-`none`
verdict, the intermediate rotated file is still present in the working
directory — the code renames and rewrites but never deletes it. -/
theorem intermediate_rotated_file_remains :
    savePage (fun _ => Rotation.clockwise) (fun _ => ()) 1 "/t"
        (fun _ => Option.none) (rotatedPath "/t" 1) =
      some (PDoc.extracted ()) ∧
    savePage (fun _ => Rotation.clockwise) (fun _ => ()) 1 "/t"
        (fun _ => Option.none) (rotatedPath "/t" 1) ≠ Option.none := by
  exact ⟨by decide, by decide⟩

/-- C8 (amended): with a non-`none` verdict, `_save_page` renames the
unrotated file to the intermediate name and writes the corrected page
back to the original target path, but it does not discard the
intermediate file: it remains at the intermediate path until the
scoped temp directory is deleted.  Nothing outside the two paths is
touched. -/
theorem rotation_writes_back_keeps_intermediate {P : Type}
    (detect : PDoc P → Rotation) (doc : Nat → P) (page : Nat)
    (temp : String) (fs : String → Option (PDoc P))
    (h : detect (PDoc.extracted (doc page)) ≠ Rotation.none)
    (hne : rotatedPath temp page ≠ pagePath temp page) :
    savePage detect doc page temp fs (pagePath temp page) =
      some (correctedPage (detect (PDoc.extracted (doc page)))
        (PDoc.extracted (doc page))) ∧
    savePage detect doc page temp fs (rotatedPath temp page) =
      some (PDoc.extracted (doc page)) ∧
    ∀ q, q ≠ pagePath temp page → q ≠ rotatedPath temp page →
      savePage detect doc page temp fs q = fs q := by
  refine ⟨?_, ?_, ?_⟩
  · simp [savePage, h]
  · simp [savePage, h, hne]
  · intro q hq1 hq2
    simp [savePage, h, hq1, hq2]

/-- Witness for C8 (amended): an `anticlockwise` verdict on page 1;
the corrected page sits at the target path, the extracted page remains
at the intermediate path, and an unrelated path stays empty. -/
theorem rotation_writes_back_keeps_intermediate_witness :
    savePage (fun _ => Rotation.anticlockwise) (fun _ => ()) 1 "/t"
        (fun _ => Option.none) (pagePath "/t" 1) =
      some (correctedPage Rotation.anticlockwise (PDoc.extracted ())) ∧
    savePage (fun _ => Rotation.anticlockwise) (fun _ => ()) 1 "/t"
        (fun _ => Option.none) (rotatedPath "/t" 1) =
      some (PDoc.extracted ()) ∧
    savePage (fun _ => Rotation.anticlockwise) (fun _ => ()) 1 "/t"
        (fun _ => Option.none) "/t/other.pdf" = Option.none :=
  have H := rotation_writes_back_keeps_intermediate
    (fun _ => Rotation.anticlockwise) (fun _ => ()) 1 "/t"
    (fun _ => Option.none) (by decide) (by decide)
  ⟨H.1, H.2.1, by rw [H.2.2 "/t/other.pdf" (by decide) (by decide)]⟩

end Camelot
